import Mathlib

/-!
Shallow embedding of the bookmark-resolution core of `src/goto.py` and
verification of the specification's claims about it.

Python dictionaries with string keys are modelled as association lists with
unique keys (`dlookup` is `d[k]` / `k in d`, `dupdate` is `d[k] = v`).
Python exceptions are modelled with `Except PyErr`; the functions below
follow the source statement by statement, and each comment points at the
lines of `src/goto.py` being translated.
-/

namespace Goto

/-- Unhandled Python exceptions that the translated code can raise. -/
inductive PyErr where
  | keyError (key : String)
  | attributeError (attr : String)
  | typeError (msg : String)
deriving DecidableEq

/-- A shortcut table: Python dict mapping shortcut name to path suffix. -/
abbrev Table := List (String × String)

/-- Python dict lookup `d[k]` / membership `k in d` on an association list
(keys are unique in every dict the program builds, so first-match lookup is
exact). -/
def dlookup {α : Type} : List (String × α) → String → Option α
  | [], _ => none
  | (k, v) :: t, key => if k = key then some v else dlookup t key

/-- Python dict assignment `d[k] = v`: replace the binding in place if the key
exists (preserving insertion order), otherwise append the new binding. -/
def dupdate {α : Type} : List (String × α) → String → α → List (String × α)
  | [], k, v => [(k, v)]
  | (k', v') :: t, k, v => if k' = k then (k, v) :: t else (k', v') :: dupdate t k v

/-- The `Root` class of src/goto.py lines 75-88: `__init__` sets exactly the
attributes `root`, `name`, `path`, `defaults` and `shortcuts`; no other
attribute is ever assigned on a `Root` instance anywhere in the program. -/
structure Root where
  root : String
  name : String
  path : String
  defaults : List String
  shortcuts : Table
deriving DecidableEq

/-- The store produced by `Root.from_dir`: a dict from identifier to `Root`. -/
abbrev Store := List (String × Root)

/-- The config record `{"current_root": ...}` persisted in config.json. -/
structure Config where
  current_root : String
deriving DecidableEq

/-- Body of the `for default_root in root_obj.defaults` loop of
`get_shortcuts` (src/goto.py lines 313-315), threading the store state.
Each iteration first evaluates `roots[default_root]` (KeyError when the
identifier is absent) and then `default_root_obj.bookmarks`; class `Root`
defines no `bookmarks` attribute (src/goto.py lines 75-88 set only `root`,
`name`, `path`, `defaults`, `shortcuts`), so that access raises
AttributeError on every iteration it is reached, and later iterations are
unreachable. The loop only reads `roots`, so the store passes through
unchanged. -/
def defaults_loop (roots : Store) : List String → Except PyErr (List Table) × Store
  | [] => (.ok [], roots)
  | default_root :: _rest =>
    match dlookup roots default_root with
    | none => (.error (.keyError default_root), roots)
    | some _default_root_obj => (.error (.attributeError "bookmarks"), roots)

/-- `get_shortcuts(shortcut, roots, root)` (src/goto.py lines 304-317) with
the store state made explicit. Line 309 `root_obj = roots[root]` raises
KeyError when `root` is absent; line 310 appends the root's own table first;
lines 313-315 are `defaults_loop`. The returned store is the store after the
call. -/
def get_shortcuts_st (shortcut : String) (roots : Store) (root : String) :
    Except PyErr (List Table) × Store :=
  match dlookup roots root with
  | none => (.error (.keyError root), roots)
  | some root_obj =>
    match defaults_loop roots root_obj.defaults with
    | (.ok rest, roots') => (.ok (root_obj.shortcuts :: rest), roots')
    | (.error e, roots') => (.error e, roots')

/-- Value returned by `get_shortcuts` (the list of shortcut tables to search,
root's own table first). -/
def get_shortcuts (shortcut : String) (roots : Store) (root : String) :
    Except PyErr (List Table) :=
  (get_shortcuts_st shortcut roots root).1

/-- `set_relative_path(shortcut, shortcuts)` (src/goto.py lines 220-226):
return the value from the first table in the list containing the name. -/
def set_relative_path (shortcut : String) : List Table → Option String
  | [] => none
  | shortcut_set :: rest =>
    match dlookup shortcut_set shortcut with
    | some v => some v
    | none => set_relative_path shortcut rest

/-- `b.startswith("/")` on the first character, as posixpath.join tests it. -/
def starts_with_sep (s : String) : Bool := s.data.head? = some '/'

/-- `path.endswith("/")` on the last character, as posixpath.join tests it. -/
def ends_with_sep (s : String) : Bool := s.data.getLast? = some '/'

/-- `os.path.join(a, b)` on POSIX (posixpath.join with one extra component):
`b` if `b` is absolute; `a ++ b` if `a` is empty (`not path`) or already ends
with the separator; otherwise `a ++ "/" ++ b`. -/
def path_join (a b : String) : String :=
  if starts_with_sep b then b
  else if a = "" ∨ ends_with_sep a then a ++ b
  else a ++ "/" ++ b

/-- `get_path(shortcut, roots, root)` (src/goto.py lines 319-330): collect the
tables, find the relative path (`.ok none` models the `return None` of line
326), then join `roots[root].path` with it (line 328 looks the root up again). -/
def get_path (shortcut : String) (roots : Store) (root : String) :
    Except PyErr (Option String) :=
  match get_shortcuts shortcut roots root with
  | .error e => .error e
  | .ok shortcuts =>
    match set_relative_path shortcut shortcuts with
    | none => .ok none
    | some relative_path =>
      match dlookup roots root with
      | none => .error (.keyError root)
      | some root_obj => .ok (some (path_join root_obj.path relative_path))

/-- Observable outcome of the goto-shortcut branch of `main`: either the
resolved path is printed (exit code 0) or an exception escapes. -/
inductive Outcome where
  | chdir (full_path : String)
  | crash (e : PyErr)
deriving DecidableEq

/-- The not-found report of `main` (src/goto.py line 553):
`roots[root]["name"]` first evaluates `roots[root]` (KeyError when absent),
then subscripts the resulting `Root` object; class `Root` defines no
`__getitem__`, so the subscript raises TypeError whenever it is reached. -/
def not_found_report (roots : Store) (root : String) : Outcome :=
  match dlookup roots root with
  | none => .crash (.keyError root)
  | some _root_obj => .crash (.typeError "Root object is not subscriptable")

/-- The `elif args.first` branch of `main` (src/goto.py lines 539-554), after
`parameters_from_args` has produced the `(root, shortcut)` pair. Python
truthiness on line 548 (`if full_path:`) sends both `None` and the empty
string to the not-found report. -/
def goto_mode (roots : Store) (root shortcut : String) : Outcome :=
  match get_path shortcut roots root with
  | .error e => .crash e
  | .ok (some full_path) =>
    if full_path = "" then not_found_report roots root else .chdir full_path
  | .ok none => not_found_report roots root

/-- `set_current_root(new_root, roots, configs)` (src/goto.py lines 229-238).
Line 231 reads `roots[configs["current_root"]].name` before anything else, so
a dangling persisted current root raises KeyError before `new_root` is
validated. On success the updated config is both returned and written by
`save_configs` (src/goto.py lines 241-243); the third component records the
configs written to disk, in order (empty list = no write). The misspelling
"stil" is the source's. -/
def set_current_root (new_root : String) (roots : Store) (configs : Config) :
    Except PyErr (String × Config × List Config) :=
  match dlookup roots configs.current_root with
  | none => .error (.keyError configs.current_root)
  | some current_root_obj =>
    match dlookup roots new_root with
    | some new_root_obj =>
      .ok ("New root set to " ++ new_root_obj.name,
           { configs with current_root := new_root },
           [{ configs with current_root := new_root }])
    | none =>
      .ok (new_root ++ " not recognized, current root is stil " ++ current_root_obj.name,
           configs, [])

/-- Insert a sequence of per-file decode results into a store, in order. This
is the dict comprehension of `Root.from_dir` (src/goto.py lines 124-128)
started from an arbitrary accumulator: failed decodes (`Root.from_file`
returns `None` on any exception, lines 108-114) and records with a null
identifier are skipped, every surviving root is inserted under its
identifier, and a later insertion under the same identifier overwrites the
earlier one. -/
def insert_records (roots : Store) (decoded : List (Option Root)) : Store :=
  decoded.foldl
    (fun m o =>
      match o with
      | none => m
      | some root => dupdate m root.root root)
    roots

/-- `Root.from_dir` (src/goto.py lines 116-130) applied to the ordered list of
per-file decode results of one directory. -/
def from_dir (decoded : List (Option Root)) : Store :=
  insert_records [] decoded

/-- Modelled from the spec: the Root Store load over an ordered list of
storage locations ("global" listed before "local", §4.1/§6). `main` in
src/goto.py (line 475) reads only the single directory `ROOTS_DIR` via
`Root.from_dir`; the two-tier ordered read is present only in the spec. Per
the spec's words, locations are read in the given order and each decoded Root
is inserted under its identifier, overwriting any prior entry — the insertion
being exactly the one `from_dir` performs within a single directory. -/
def load_locations (locations : List (List (Option Root))) : Store :=
  locations.foldl insert_records []

/-- Does some decoded record in the list carry this identifier? -/
def has_id : List (Option Root) → String → Bool
  | [], _ => false
  | none :: rest, id => has_id rest id
  | some root :: rest, id => root.root = id || has_id rest id

/-- Does `pat` occur at the start of `l`? (substring search helper). -/
def occurs_at : List Char → List Char → Bool
  | _, [] => true
  | [], _ :: _ => false
  | c :: cs, p :: ps => c = p && occurs_at cs ps

/-- Does the string `t` occur as a contiguous substring of `s`? -/
def mentions_aux : List Char → List Char → Bool
  | [], pat => pat.isEmpty
  | c :: rest, pat => occurs_at (c :: rest) pat || mentions_aux rest pat

/-- Does the string `t` occur as a contiguous substring of `s`? -/
def mentions (s t : String) : Bool := mentions_aux s.data t.data

/-! ## Concrete stores used as inputs -/

/-- Root "R" with its own shortcut `x -> a`, inheriting from default "D". -/
def rootR : Root := ⟨"R", "RName", "/base", ["D"], [("x", "a")]⟩

/-- Default root "D" with shortcuts `x -> b`, `y -> c`. -/
def rootD : Root := ⟨"D", "DName", "/dbase", [], [("x", "b"), ("y", "c")]⟩

/-- Store holding `R` (defaults = ["D"]) and `D`. -/
def storeRD : Store := [("R", rootR), ("D", rootD)]

/-- Root "A" of the two-cycle: defaults = ["B"]. -/
def rootA : Root := ⟨"A", "AName", "/a", ["B"], [("ax", "1")]⟩

/-- Root "B" of the two-cycle: defaults = ["A"]. -/
def rootB : Root := ⟨"B", "BName", "/b", ["A"], [("bx", "2")]⟩

/-- Store with the cyclic pair A <-> B. -/
def storeAB : Store := [("A", rootA), ("B", rootB)]

/-- A store containing only the root "present" (no defaults). -/
def storeC3 : Store := [("present", ⟨"present", "Present", "/p", [], [("x", "s")]⟩)]

/-- Root "R" whose defaults name the absent identifier "ghost". -/
def rootGhost : Root := ⟨"R", "RName", "/base", ["ghost"], [("x", "a")]⟩

/-- The same root with defaults = []. -/
def rootNoDef : Root := ⟨"R", "RName", "/base", [], [("x", "a")]⟩

/-- Store with the ghost-defaulting root only ("ghost" is absent). -/
def storeGhost : Store := [("R", rootGhost)]

/-- Store with the defaults-free variant of the same root. -/
def storeNoDef : Store := [("R", rootNoDef)]

/-- Root "r" at /home/u/proj with shortcuts `docs` and the empty-suffix `empty`. -/
def rootProj : Root :=
  ⟨"r", "proj", "/home/u/proj", [], [("docs", "documentation"), ("empty", "")]⟩

/-- Store holding only `rootProj`. -/
def storeProj : Store := [("r", rootProj)]

/-- Root identified "alpha", displayed "Home". -/
def rootAlpha : Root := ⟨"alpha", "Home", "/h", [], []⟩

/-- Root identified "beta", displayed "Work". -/
def rootBeta : Root := ⟨"beta", "Work", "/w", [], []⟩

/-- Store holding `alpha` and `beta`. -/
def storeC8 : Store := [("alpha", rootAlpha), ("beta", rootBeta)]

/-- Config whose persisted current root is "alpha". -/
def configC8 : Config := ⟨"alpha"⟩

/-- The global-tier record for identifier "r". -/
def rootG1 : Root := ⟨"r", "global", "/g", [], []⟩

/-- The local-tier record for identifier "r". -/
def rootG2 : Root := ⟨"r", "local", "/l", [], [("s", "x")]⟩

/-! ## Helper lemmas -/

/-- The defaults loop never writes to the store. -/
theorem defaults_loop_state (roots : Store) (ds : List String) :
    (defaults_loop roots ds).2 = roots := by
  cases ds with
  | nil => rfl
  | cons d rest =>
    cases h : dlookup roots d <;> simp [defaults_loop, h]

/-- Looking up the key just written returns the written value. -/
theorem dlookup_dupdate_self {α : Type} (m : List (String × α)) (k : String) (v : α) :
    dlookup (dupdate m k v) k = some v := by
  induction m with
  | nil => simp [dupdate, dlookup]
  | cons p t ih =>
    obtain ⟨k', v'⟩ := p
    by_cases h : k' = k
    · simp [dupdate, h, dlookup]
    · simp [dupdate, h, dlookup, ih]

/-- Writing one key leaves the other keys' lookups unchanged. -/
theorem dlookup_dupdate_ne {α : Type} (m : List (String × α)) (k k' : String) (v : α)
    (h : k' ≠ k) : dlookup (dupdate m k v) k' = dlookup m k' := by
  have hk : k ≠ k' := Ne.symm h
  induction m with
  | nil => simp [dupdate, dlookup, hk]
  | cons p t ih =>
    obtain ⟨k₀, v₀⟩ := p
    by_cases h₀ : k₀ = k
    · subst h₀
      simp [dupdate, dlookup, hk]
    · simp [dupdate, h₀, dlookup, ih]

/-- Records that never mention an identifier cannot change its binding. -/
theorem insert_records_not_has (decoded : List (Option Root)) (id : String)
    (h : has_id decoded id = false) (m : Store) :
    dlookup (insert_records m decoded) id = dlookup m id := by
  induction decoded generalizing m with
  | nil => rfl
  | cons o rest ih =>
    cases o with
    | none =>
      simpa [insert_records, List.foldl_cons] using ih (by simpa [has_id] using h) m
    | some root =>
      have h' : root.root ≠ id ∧ has_id rest id = false := by
        simpa [has_id] using h
      have : dlookup (insert_records (dupdate m root.root root) rest) id =
          dlookup (dupdate m root.root root) id := ih h'.2 _
      simpa [insert_records, List.foldl_cons,
             dlookup_dupdate_ne m root.root id root (fun e => h'.1 e.symm)] using this

/-- When some record in the list carries the identifier, the binding the list
produces does not depend on the accumulator it is inserted into. -/
theorem insert_records_has (decoded : List (Option Root)) (id : String)
    (h : has_id decoded id = true) (m m' : Store) :
    dlookup (insert_records m decoded) id = dlookup (insert_records m' decoded) id := by
  induction decoded generalizing m m' with
  | nil => simp [has_id] at h
  | cons o rest ih =>
    cases o with
    | none =>
      simpa [insert_records, List.foldl_cons] using ih (by simpa [has_id] using h) m m'
    | some root =>
      by_cases hr : has_id rest id = true
      · simpa [insert_records, List.foldl_cons] using
          ih hr (dupdate m root.root root) (dupdate m' root.root root)
      · have hroot : root.root = id := by
          rcases (by simpa [has_id] using h : root.root = id ∨ has_id rest id = true) with
            h' | h'
          · exact h'
          · exact absurd h' hr
        subst hroot
        have e1 := insert_records_not_has rest root.root (by simpa using hr)
          (dupdate m root.root root)
        have e2 := insert_records_not_has rest root.root (by simpa using hr)
          (dupdate m' root.root root)
        simp [insert_records, List.foldl_cons] at e1 e2 ⊢
        rw [e1, e2, dlookup_dupdate_self, dlookup_dupdate_self]

/-! ## Claims -/

/-- C1: the claim says that for root "R" with own shortcuts `x -> a` and
default "D" with `x -> b, y -> c`, the effective table is `x -> a, y -> c`
(root wins, default fills in). The code instead crashes: resolving any
shortcut for a root whose `defaults` list is non-empty reaches
`default_root_obj.bookmarks` (src/goto.py line 315), an attribute no `Root`
has, and raises AttributeError. -/
theorem defaults_merge_crashes_on_bookmarks :
    get_shortcuts "x" storeRD "R" = .error (.attributeError "bookmarks") := rfl

/-- C2: the claim says that for the cyclic pair A.defaults=["B"],
B.defaults=["A"] the effective table of A is computed without crashing and
equals A's own shortcuts. The code never recurses (so it cannot hang), but it
crashes on the first default: `roots["B"].bookmarks` raises AttributeError,
and symmetrically for B. -/
theorem cycle_store_crashes_before_recursion :
    get_shortcuts "ax" storeAB "A" = .error (.attributeError "bookmarks") ∧
    get_shortcuts "bx" storeAB "B" = .error (.attributeError "bookmarks") := ⟨rfl, rfl⟩

/-- C3: the claim says a resolution attempt for an identifier absent from the
store proceeds with an empty shortcut set and reports not-found. The code
instead raises an unhandled KeyError at `roots[root]` (src/goto.py line 309):
the goto branch of `main` crashes for the dangling identifier "gone". -/
theorem absent_root_resolution_raises_key_error :
    goto_mode storeC3 "gone" "x" = .crash (.keyError "gone") := rfl

/-- C4: the claim says a default naming an absent identifier ("ghost")
contributes nothing, making the root resolve identically to the same root
with `defaults=[]`. The code instead raises KeyError at
`roots[default_root]` (src/goto.py line 314) for the ghost default, while the
defaults-free variant succeeds — the two are not identical. -/
theorem ghost_default_raises_key_error :
    get_shortcuts "x" storeGhost "R" = .error (.keyError "ghost") ∧
    get_shortcuts "x" storeNoDef "R" = .ok [[("x", "a")]] := ⟨rfl, rfl⟩

/-- C5: the claim says a shortcut name absent from an existing root's
effective table yields a user-visible not-found diagnostic and a non-zero
exit status, not a crash. The code computes `get_path = None` correctly, but
the report on src/goto.py line 553 evaluates `roots[root]["name"]`, and
`Root` objects are not subscriptable, so the branch raises TypeError instead
of printing the diagnostic. -/
theorem not_found_report_raises_type_error :
    goto_mode storeProj "r" "missing" =
      .crash (.typeError "Root object is not subscriptable") := rfl

/-- C6 counterexample: the claim says a shortcut mapped to the empty suffix
resolves to the base path exactly; `os.path.join` actually appends a trailing
separator, so "empty" under base "/home/u/proj" resolves to "/home/u/proj/",
which differs from "/home/u/proj". -/
theorem empty_suffix_counterexample :
    get_path "empty" storeProj "r" = .ok (some "/home/u/proj/") ∧
    "/home/u/proj/" ≠ "/home/u/proj" := ⟨rfl, by decide⟩

/-- C6 (amended): whenever resolution succeeds, the resolved path is the
platform path-join of the root's `path` with the shortcut's suffix;
`"docs" -> "documentation"` under "/home/u/proj" joins to
"/home/u/proj/documentation", and the empty suffix joins to "/home/u/proj/"
(the base path followed by the separator), not the base path exactly. -/
theorem resolved_path_is_join (roots : Store) (root shortcut : String)
    (tables : List Table) (rel : String) (root_obj : Root)
    (h1 : get_shortcuts shortcut roots root = .ok tables)
    (h2 : set_relative_path shortcut tables = some rel)
    (h3 : dlookup roots root = some root_obj) :
    get_path shortcut roots root = .ok (some (path_join root_obj.path rel)) ∧
    path_join "/home/u/proj" "documentation" = "/home/u/proj/documentation" ∧
    path_join "/home/u/proj" "" = "/home/u/proj/" := by
  refine ⟨?_, by decide, by decide⟩
  simp [get_path, h1, h2, h3]

/-- C6 witness: the amended statement applied to the concrete store. -/
theorem resolved_path_is_join_witness :
    get_path "docs" storeProj "r" = .ok (some "/home/u/proj/documentation") := by
  have h := resolved_path_is_join storeProj "r" "docs" [rootProj.shortcuts]
    "documentation" rootProj rfl rfl rfl
  rw [h.1]
  rfl

/-- C7: resolving a root's shortcut tables leaves the store — and hence every
stored Root's own shortcut table — unchanged, and a second call on the
post-call store returns the same result as the first: resolution is
idempotent and mutation-free. -/
theorem effective_shortcuts_idempotent (shortcut : String) (roots : Store) (root : String) :
    (get_shortcuts_st shortcut roots root).2 = roots ∧
    get_shortcuts shortcut ((get_shortcuts_st shortcut roots root).2) root =
      get_shortcuts shortcut roots root := by
  have hs : (get_shortcuts_st shortcut roots root).2 = roots := by
    cases h : dlookup roots root with
    | none => simp [get_shortcuts_st, h]
    | some root_obj =>
      cases hd : defaults_loop roots root_obj.defaults with
      | mk res st =>
        have hst : st = roots := by
          have := defaults_loop_state roots root_obj.defaults
          rw [hd] at this
          exact this
        cases res <;> simp [get_shortcuts_st, h, hd, hst]
  exact ⟨hs, by rw [hs]⟩

/-- C8 counterexample: on success `set_current_root` answers
"New root set to Work" — a message mentioning neither the previous
identifier "alpha" nor the new identifier "beta", refuting "confirmation
including the previous and new identifiers"; and when the persisted current
root dangles ("gone"), the call raises KeyError even though the new
identifier "beta" is valid, refuting "for every store and config". -/
theorem set_current_message_counterexample :
    (set_current_root "beta" storeC8 configC8 =
        .ok ("New root set to Work", Config.mk "beta", [Config.mk "beta"]) ∧
      mentions "New root set to Work" "alpha" = false ∧
      mentions "New root set to Work" "beta" = false) ∧
    set_current_root "beta" storeC8 (Config.mk "gone") = .error (.keyError "gone") :=
  ⟨⟨rfl, by decide, by decide⟩, rfl⟩

/-- C8 (amended): provided the persisted current root names a root in the
store, setting the current root to an unknown identifier returns a
user-visible message and performs no disk write, and setting it to a known
identifier persists the new identifier (returning it in the config and
writing exactly that config) and returns a confirmation naming the new
root's display name — not necessarily the previous or new identifiers. -/
theorem set_current_root_behaviour (new_root : String) (roots : Store) (configs : Config)
    (cur : Root) (hcur : dlookup roots configs.current_root = some cur) :
    (dlookup roots new_root = none →
      set_current_root new_root roots configs =
        .ok (new_root ++ " not recognized, current root is stil " ++ cur.name,
             configs, [])) ∧
    (∀ nr, dlookup roots new_root = some nr →
      set_current_root new_root roots configs =
        .ok ("New root set to " ++ nr.name,
             { configs with current_root := new_root },
             [{ configs with current_root := new_root }])) := by
  constructor
  · intro h
    simp [set_current_root, hcur, h]
  · intro nr h
    simp [set_current_root, hcur, h]

/-- C8 witness: the amended statement applied to the concrete store, on both
the unknown-identifier and the known-identifier paths. -/
theorem set_current_root_behaviour_witness :
    set_current_root "missing" storeC8 configC8 =
      .ok ("missing not recognized, current root is stil Home", configC8, []) ∧
    set_current_root "beta" storeC8 configC8 =
      .ok ("New root set to Work", Config.mk "beta", [Config.mk "beta"]) := by
  constructor
  · have h := (set_current_root_behaviour "missing" storeC8 configC8 rootAlpha
      rfl).1 rfl
    rw [h]
    rfl
  · have h := (set_current_root_behaviour "beta" storeC8 configC8 rootAlpha
      rfl).2 rootBeta rfl
    rw [h]
    rfl

/-- C9 (spec-modelled store load): reading locations global-then-local, an
identifier defined in the local location ends up bound exactly as the local
location alone binds it — the later-listed location wins on collision,
whatever the global location contained. -/
theorem later_location_wins (glob loc : List (Option Root)) (id : String)
    (h : has_id loc id = true) :
    dlookup (load_locations [glob, loc]) id = dlookup (from_dir loc) id :=
  insert_records_has loc id h (insert_records [] glob) []

/-- C9 witness: with G1 defining "r" in the global location and G2 defining
"r" in the local location, the merged store maps "r" to G2's record. -/
theorem later_location_wins_witness :
    has_id [some rootG2] "r" = true ∧
    dlookup (load_locations [[some rootG1], [some rootG2]]) "r" = some rootG2 ∧
    rootG1 ≠ rootG2 := by
  refine ⟨rfl, ?_, by decide⟩
  rw [later_location_wins [some rootG1] [some rootG2] "r" rfl]
  rfl

/-- C10: when the persisted current root is absent from the store,
`set_current_root` raises KeyError while reading the old root's name
(src/goto.py line 231), before validating the new identifier — for every new
identifier, present in the store or not. -/
theorem set_current_dangling_key_error (new_root : String) (roots : Store)
    (configs : Config) (h : dlookup roots configs.current_root = none) :
    set_current_root new_root roots configs =
      .error (.keyError configs.current_root) := by
  simp [set_current_root, h]

/-- C10 witness: the current root "gone" dangles while the requested new root
"beta" exists, yet the call raises KeyError for "gone". -/
theorem set_current_dangling_key_error_witness :
    dlookup [("beta", rootBeta)] "gone" = none ∧
    (dlookup [("beta", rootBeta)] "beta").isSome = true ∧
    set_current_root "beta" [("beta", rootBeta)] (Config.mk "gone") =
      .error (.keyError "gone") := by
  refine ⟨rfl, rfl, ?_⟩
  exact set_current_dangling_key_error "beta" [("beta", rootBeta)] (Config.mk "gone") rfl

end Goto
